import Mathlib

/-!
# Verification of the OCPP 1.6 Central System (src/server.py, src/app.py)

A shallow embedding of the repository's Central System handlers.  Python
dicts keyed by integers are modelled as association lists with Python's
insertion-order semantics (assignment to an existing key updates in place,
assignment to a fresh key appends, `del` removes the entry, `len` is the
number of entries).  Logger calls are modelled as a returned list of log
entries; `**kwargs`-dependent log lines are modelled only where the code
reads a specific key (`kwargs.get('reason', ...)` and the like).
`datetime.now(...)` is an input parameter `now`.
-/

namespace OCPP

/-- Python dict lookup `d[k]` / `k in d`: the value at the first (unique)
matching key. -/
def dictLookup {α : Type} : List (Nat × α) → Nat → Option α
  | [], _ => none
  | (k', v') :: rest, k => if k' = k then some v' else dictLookup rest k

/-- Python dict assignment `d[k] = v`: update in place when the key exists,
append otherwise. -/
def dictInsert {α : Type} : List (Nat × α) → Nat → α → List (Nat × α)
  | [], k, v => [(k, v)]
  | (k', v') :: rest, k, v =>
    if k' = k then (k, v) :: rest else (k', v') :: dictInsert rest k v

/-- Python dict deletion `del d[k]`. -/
def dictErase {α : Type} : List (Nat × α) → Nat → List (Nat × α)
  | [], _ => []
  | (k', v') :: rest, k =>
    if k' = k then dictErase rest k else (k', v') :: dictErase rest k

/-- Enum `ocpp.v16.enums.RegistrationStatus`. -/
inductive RegistrationStatus
  | accepted
  | pending
  | rejected
deriving DecidableEq

/-- Enum `ocpp.v16.enums.AuthorizationStatus`. -/
inductive AuthorizationStatus
  | accepted
  | blocked
  | expired
  | invalid
  | concurrentTx
deriving DecidableEq

/-- Enum `ocpp.v16.enums.DataTransferStatus`. -/
inductive DataTransferStatus
  | accepted
  | rejected
  | unknownMessageId
  | unknownVendorId
deriving DecidableEq

/-- Datatype `ocpp.v16.datatypes.IdTagInfo` (only the status field is ever set by
the server). -/
structure IdTagInfo where
  status : AuthorizationStatus
deriving DecidableEq

/-- The record stored in `self.transactions[transaction_id]` by
`on_start_transaction` (src/server.py lines 123-128). -/
structure Transaction where
  connector_id : Nat
  id_tag : String
  meter_start : Int
  timestamp : String
deriving DecidableEq

/-- A reservation record for `self.reservations` (src/server.py line 23;
field shape from the spec's Reservation data model, since the repository
never writes this map). -/
structure Reservation where
  reservation_id : Nat
  connector_id : Nat
  id_tag : String
  expiry : String
deriving DecidableEq

/-- Levels used by the `logging` calls in src/server.py. -/
inductive LogLevel
  | info
  | warning
  | error
deriving DecidableEq

/-- One logger call: a level and the rendered message. -/
structure LogEntry where
  level : LogLevel
  msg : String
deriving DecidableEq

/-- The state of one `CentralSystem` instance (src/server.py lines 17-23):
its charge point identity and the two per-session maps set up in
`__init__`. -/
structure CentralSystem where
  id : String
  transactions : List (Nat × Transaction)
  reservations : List (Nat × Reservation)
deriving DecidableEq

/-- Constructor `CentralSystem.__init__` (src/server.py lines 20-23): both maps start
empty. -/
def CentralSystem.mkSession (id : String) : CentralSystem :=
  { id := id, transactions := [], reservations := [] }

/-- Payload `call_result.BootNotification` as built by the handler. -/
structure BootNotificationResult where
  current_time : String
  interval : Nat
  status : RegistrationStatus
deriving DecidableEq

/-- Payload `call_result.Heartbeat`. -/
structure HeartbeatResult where
  current_time : String
deriving DecidableEq

/-- Payload `call_result.StartTransaction`. -/
structure StartTransactionResult where
  transaction_id : Nat
  id_tag_info : IdTagInfo
deriving DecidableEq

/-- Payload `call_result.StopTransaction`. -/
structure StopTransactionResult where
  id_tag_info : IdTagInfo
deriving DecidableEq

/-- Payload `call_result.Authorize`. -/
structure AuthorizeResult where
  id_tag_info : IdTagInfo
deriving DecidableEq

/-- Payload `call_result.DataTransfer`. -/
structure DataTransferResult where
  status : DataTransferStatus
deriving DecidableEq

/-- One sampled value inside a MeterValues payload entry (the JSON dict
read with `.get` in `on_meter_values`). -/
structure SampledValue where
  measurand : String
  value : String
  unit : String
deriving DecidableEq

/-- One entry of the `meter_value` list in a MeterValues call. -/
structure MeterValueEntry where
  timestamp : String
  sampled_value : List SampledValue
deriving DecidableEq

/-- Handler `CentralSystem.on_boot_notification` (src/server.py lines 81-91):
logs, then answers with the current time, interval 30 and status
Accepted; the session state is untouched. -/
def on_boot_notification (cs : CentralSystem) (now : String)
    (charge_point_vendor charge_point_model : String) :
    BootNotificationResult × CentralSystem × List LogEntry :=
  (⟨now, 30, RegistrationStatus.accepted⟩, cs,
   [⟨LogLevel.info, "BootNotification received from " ++ cs.id⟩,
    ⟨LogLevel.info,
     "Vendor: " ++ charge_point_vendor ++ ", Model: " ++ charge_point_model⟩])

/-- Handler `CentralSystem.on_heartbeat` (src/server.py lines 93-98). -/
def on_heartbeat (cs : CentralSystem) (now : String) :
    HeartbeatResult × CentralSystem × List LogEntry :=
  (⟨now⟩, cs, [⟨LogLevel.info, "Heartbeat received from " ++ cs.id⟩])

/-- Handler `CentralSystem.on_status_notification` (src/server.py lines 100-105). -/
def on_status_notification (cs : CentralSystem) (connector_id : Nat)
    (error_code status : String) :
    Unit × CentralSystem × List LogEntry :=
  ((), cs,
   [⟨LogLevel.info,
     "StatusNotification from " ++ cs.id ++ ": Connector " ++
       toString connector_id ++ " = " ++ status ++ " (Error: " ++
       error_code ++ ")"⟩])

/-- Handler `CentralSystem.on_meter_values` (src/server.py lines 107-118): logs
every entry and sample, answers an empty payload, state untouched. -/
def on_meter_values (cs : CentralSystem) (connector_id : Nat)
    (meter_value : List MeterValueEntry) :
    Unit × CentralSystem × List LogEntry :=
  ((), cs,
   ⟨LogLevel.info,
    "MeterValues from " ++ cs.id ++ ": Connector " ++ toString connector_id⟩ ::
    meter_value.flatMap (fun mv =>
      ⟨LogLevel.info, "  Timestamp: " ++ mv.timestamp⟩ ::
      mv.sampled_value.map (fun s =>
        ⟨LogLevel.info,
         "    " ++ s.measurand ++ ": " ++ s.value ++ " " ++ s.unit⟩)))

/-- Handler `CentralSystem.on_start_transaction` (src/server.py lines 120-135):
allocates `transaction_id = len(self.transactions) + 1`, stores the call's
fields under that key, and answers with the id and an accepted
IdTagInfo. -/
def on_start_transaction (cs : CentralSystem) (connector_id : Nat)
    (id_tag : String) (meter_start : Int) (timestamp : String) :
    StartTransactionResult × CentralSystem × List LogEntry :=
  let transaction_id := cs.transactions.length + 1
  let cs' := { cs with
    transactions := dictInsert cs.transactions transaction_id
      ⟨connector_id, id_tag, meter_start, timestamp⟩ }
  (⟨transaction_id, ⟨AuthorizationStatus.accepted⟩⟩, cs',
   [⟨LogLevel.info,
     "StartTransaction from " ++ cs.id ++ ": Connector " ++
       toString connector_id ++ ", ID: " ++ id_tag ++ ", Transaction: " ++
       toString transaction_id⟩,
    ⟨LogLevel.info,
     "  Meter start: " ++ toString meter_start ++ ", Time: " ++ timestamp⟩])

/-- Handler `CentralSystem.on_stop_transaction` (src/server.py lines 137-151): a
known transaction_id is deleted from the map with info logs; an unknown
one only logs a warning; either way the result is an accepted IdTagInfo.
`reason` models `kwargs.get('reason', 'Unknown')`. -/
def on_stop_transaction (cs : CentralSystem) (meter_stop : Int)
    (timestamp : String) (transaction_id : Nat) (reason : Option String) :
    StopTransactionResult × CentralSystem × List LogEntry :=
  match dictLookup cs.transactions transaction_id with
  | some transaction =>
    let energy_consumed := meter_stop - transaction.meter_start
    (⟨⟨AuthorizationStatus.accepted⟩⟩,
     { cs with transactions := dictErase cs.transactions transaction_id },
     [⟨LogLevel.info,
       "StopTransaction from " ++ cs.id ++ ": Transaction " ++
         toString transaction_id⟩,
      ⟨LogLevel.info,
       "  Meter stop: " ++ toString meter_stop ++ ", Energy consumed: " ++
         toString energy_consumed⟩,
      ⟨LogLevel.info, "  Reason: " ++ reason.getD "Unknown"⟩])
  | none =>
    (⟨⟨AuthorizationStatus.accepted⟩⟩, cs,
     [⟨LogLevel.warning,
       "StopTransaction for unknown transaction " ++ toString transaction_id⟩])

/-- Handler `CentralSystem.on_authorize` (src/server.py lines 153-159): accepts
every tag. -/
def on_authorize (cs : CentralSystem) (id_tag : String) :
    AuthorizeResult × CentralSystem × List LogEntry :=
  (⟨⟨AuthorizationStatus.accepted⟩⟩, cs,
   [⟨LogLevel.info, "Authorize from " ++ cs.id ++ ": ID tag " ++ id_tag⟩])

/-- Handler `CentralSystem.on_data_transfer` (src/server.py lines 161-167);
`message_id`/`data` model `kwargs.get(..., 'N/A')`. -/
def on_data_transfer (cs : CentralSystem) (vendor_id : String)
    (message_id data : Option String) :
    DataTransferResult × CentralSystem × List LogEntry :=
  (⟨DataTransferStatus.accepted⟩, cs,
   [⟨LogLevel.info,
     "DataTransfer from " ++ cs.id ++ ": Vendor " ++ vendor_id ++
       ", Message: " ++ message_id.getD "N/A"⟩,
    ⟨LogLevel.info, "  Data: " ++ data.getD "N/A"⟩])

/-- Handler `CentralSystem.on_diagnostics_status_notification`
(src/server.py lines 169-172). -/
def on_diagnostics_status (cs : CentralSystem) (status : String) :
    Unit × CentralSystem × List LogEntry :=
  ((), cs,
   [⟨LogLevel.info,
     "DiagnosticsStatusNotification from " ++ cs.id ++ ": " ++ status⟩])

/-- Handler `CentralSystem.on_firmware_status_notification`
(src/server.py lines 174-177). -/
def on_firmware_status (cs : CentralSystem) (status : String) :
    Unit × CentralSystem × List LogEntry :=
  ((), cs,
   [⟨LogLevel.info,
     "FirmwareStatusNotification from " ++ cs.id ++ ": " ++ status⟩])

/-- Handler `CentralSystem.on_boot_notification` in src/app.py (lines 28-40): the
suffixed UTC time, interval 30, status Accepted (the handler also schedules
an outbound ChangeConfiguration call, an I/O effect outside this model). -/
def appBootNotification (now : String)
    (charge_point_vendor charge_point_model : String) :
    BootNotificationResult :=
  let _ := charge_point_vendor
  let _ := charge_point_model
  ⟨now ++ "Z", 30, RegistrationStatus.accepted⟩

/-- Python `str.strip("/")` on the character list of the path: drop the
slashes from both ends (src/server.py line 198, src/app.py line 64). -/
def stripSlashes (l : List Char) : List Char :=
  ((l.dropWhile (fun c => c == '/')).reverse.dropWhile (fun c => c == '/')).reverse

/-- Assignment `charge_point_id = path.strip("/")` (src/server.py line 198). -/
def chargePointId (path : String) : String :=
  ⟨stripSlashes path.toList⟩

/-- Function `on_connect` (src/server.py lines 194-201): builds the session keyed by
the stripped path. -/
def on_connect (path : String) : CentralSystem :=
  CentralSystem.mkSession (chargePointId path)

/-- Modelled from the spec: "Connection URL path segment after the final
`/` is the charge point identity" — the substring after the last slash,
for comparison with the code's `chargePointId`. -/
def pathSegmentAfterLastSlash (path : String) : String :=
  ⟨(path.toList.reverse.takeWhile (fun c => c != '/')).reverse⟩

/-- Modelled from the spec: src/server.py initialises `self.reservations`
(line 23) but registers no ReserveNow handler anywhere in the repository;
per the spec's Reservation data model, ReserveNow creates an entry keyed
by its reservation_id. -/
def on_reserve_now (cs : CentralSystem) (connector_id : Nat)
    (expiry_date id_tag : String) (reservation_id : Nat) : CentralSystem :=
  { cs with
    reservations := dictInsert cs.reservations reservation_id
      ⟨reservation_id, connector_id, id_tag, expiry_date⟩ }

/-- Modelled from the spec: the repository registers no CancelReservation
handler; per the spec, CancelReservation removes the entry with that
reservation_id from the reservations map. -/
def on_cancel_reservation (cs : CentralSystem) (reservation_id : Nat) :
    CentralSystem :=
  { cs with reservations := dictErase cs.reservations reservation_id }

/-- One handled StartTransaction or StopTransaction call, with the
payload fields its handler reads. -/
inductive TxEvent
  | start (connector_id : Nat) (id_tag : String) (meter_start : Int)
      (timestamp : String)
  | stop (meter_stop : Int) (timestamp : String) (transaction_id : Nat)
      (reason : Option String)
deriving DecidableEq

/-- Whether an event is a StartTransaction. -/
def TxEvent.isStart : TxEvent → Bool
  | .start _ _ _ _ => true
  | .stop _ _ _ _ => false

/-- Run a sequence of StartTransaction/StopTransaction handlings on a
session, collecting the transaction_ids allocated by the Start
handlings in order. -/
def runTxEvents : CentralSystem → List TxEvent → CentralSystem × List Nat
  | cs, [] => (cs, [])
  | cs, .start cid tag ms t :: rest =>
    let r := on_start_transaction cs cid tag ms t
    let res := runTxEvents r.2.1 rest
    (res.1, r.1.transaction_id :: res.2)
  | cs, .stop ms t tid reason :: rest =>
    let r := on_stop_transaction cs ms t tid reason
    runTxEvents r.2.1 rest

/-- An inbound call carrying the payload fields its registered handler
reads (src/server.py lines 81-177). -/
inductive InboundCall
  | bootNotification (charge_point_vendor charge_point_model : String)
  | heartbeat
  | statusNotification (connector_id : Nat) (error_code status : String)
  | meterValues (connector_id : Nat) (meter_value : List MeterValueEntry)
  | startTransaction (connector_id : Nat) (id_tag : String)
      (meter_start : Int) (timestamp : String)
  | stopTransaction (meter_stop : Int) (timestamp : String)
      (transaction_id : Nat) (reason : Option String)
  | authorize (id_tag : String)
  | dataTransfer (vendor_id : String) (message_id data : Option String)
  | diagnosticsStatus (status : String)
  | firmwareStatus (status : String)
deriving DecidableEq

/-- Whether an inbound call is StartTransaction or StopTransaction. -/
def InboundCall.isTransactionCall : InboundCall → Bool
  | .startTransaction _ _ _ _ => true
  | .stopTransaction _ _ _ _ => true
  | _ => false

/-- The CallResult payload produced by the matching handler. -/
inductive CallResultPayload
  | bootNotification (r : BootNotificationResult)
  | heartbeat (r : HeartbeatResult)
  | statusNotification
  | meterValues
  | startTransaction (r : StartTransactionResult)
  | stopTransaction (r : StopTransactionResult)
  | authorize (r : AuthorizeResult)
  | dataTransfer (r : DataTransferResult)
  | diagnosticsStatus
  | firmwareStatus
deriving DecidableEq

/-- Dispatch one inbound call to the registered `@on(...)` handler of
src/server.py, returning its CallResult payload, the updated session
state and the log output. -/
def handleCall (cs : CentralSystem) (now : String) :
    InboundCall → CallResultPayload × CentralSystem × List LogEntry
  | .bootNotification v m =>
    let r := on_boot_notification cs now v m
    (.bootNotification r.1, r.2)
  | .heartbeat =>
    let r := on_heartbeat cs now
    (.heartbeat r.1, r.2)
  | .statusNotification cid ec st =>
    let r := on_status_notification cs cid ec st
    (.statusNotification, r.2)
  | .meterValues cid mv =>
    let r := on_meter_values cs cid mv
    (.meterValues, r.2)
  | .startTransaction cid tag ms t =>
    let r := on_start_transaction cs cid tag ms t
    (.startTransaction r.1, r.2)
  | .stopTransaction ms t tid reason =>
    let r := on_stop_transaction cs ms t tid reason
    (.stopTransaction r.1, r.2)
  | .authorize tag =>
    let r := on_authorize cs tag
    (.authorize r.1, r.2)
  | .dataTransfer vid mid data =>
    let r := on_data_transfer cs vid mid data
    (.dataTransfer r.1, r.2)
  | .diagnosticsStatus st =>
    let r := on_diagnostics_status cs st
    (.diagnosticsStatus, r.2)
  | .firmwareStatus st =>
    let r := on_firmware_status cs st
    (.firmwareStatus, r.2)

/-! ## Dictionary lemmas -/

theorem dictLookup_dictInsert_self {α : Type} (d : List (Nat × α)) (k : Nat)
    (v : α) : dictLookup (dictInsert d k v) k = some v := by
  induction d with
  | nil => simp [dictInsert, dictLookup]
  | cons p rest ih =>
    by_cases h : p.1 = k
    · simp [dictInsert, dictLookup, h]
    · simpa [dictInsert, dictLookup, h] using ih

theorem dictLookup_dictErase_self {α : Type} (d : List (Nat × α)) (k : Nat) :
    dictLookup (dictErase d k) k = none := by
  induction d with
  | nil => simp [dictErase, dictLookup]
  | cons p rest ih =>
    by_cases h : p.1 = k
    · simpa [dictErase, h] using ih
    · simpa [dictErase, dictLookup, h] using ih

theorem dictLookup_dictErase_ne {α : Type} (d : List (Nat × α))
    (k k' : Nat) (h : k' ≠ k) :
    dictLookup (dictErase d k) k' = dictLookup d k' := by
  induction d with
  | nil => simp [dictErase]
  | cons p rest ih =>
    by_cases hp : p.1 = k
    · simp [dictErase, dictLookup, hp, Ne.symm h, ih]
    · by_cases hq : p.1 = k'
      · simp [dictErase, dictLookup, hp, hq, h]
      · simp [dictErase, dictLookup, hp, hq, ih]

theorem dictLookup_eq_none_of_forall_ne {α : Type} (d : List (Nat × α))
    (k : Nat) (h : ∀ p ∈ d, p.1 ≠ k) : dictLookup d k = none := by
  induction d with
  | nil => rfl
  | cons p rest ih =>
    have hp : p.1 ≠ k := h p (by simp)
    simp only [dictLookup, if_neg hp]
    exact ih (fun q hq => h q (by simp [hq]))

theorem dictInsert_eq_append {α : Type} (d : List (Nat × α)) (k : Nat)
    (v : α) (h : dictLookup d k = none) : dictInsert d k v = d ++ [(k, v)] := by
  induction d with
  | nil => rfl
  | cons p rest ih =>
    by_cases hp : p.1 = k
    · simp [dictLookup, hp] at h
    · simp only [dictLookup, if_neg hp] at h
      simp [dictInsert, hp, ih h]

/-- Keys never exceed the size of the map: the invariant that makes the
`len + 1` allocation fresh as long as no transaction is ever stopped. -/
def keysBounded {α : Type} (d : List (Nat × α)) : Prop :=
  ∀ p ∈ d, p.1 ≤ d.length

theorem dictLookup_next_eq_none {α : Type} (d : List (Nat × α))
    (h : keysBounded d) : dictLookup d (d.length + 1) = none :=
  dictLookup_eq_none_of_forall_ne d _ (fun p hp =>
    Nat.ne_of_lt (Nat.lt_succ_of_le (h p hp)))

theorem keysBounded_append {α : Type} (d : List (Nat × α)) (v : α)
    (h : keysBounded d) : keysBounded (d ++ [(d.length + 1, v)]) := by
  intro p hp
  simp only [List.length_append, List.length_singleton]
  rcases List.mem_append.mp hp with hin | hone
  · exact Nat.le_succ_of_le (h p hin)
  · simp at hone
    simp [hone]

/-! ## Behaviour of sequences of StartTransaction/StopTransaction -/

theorem on_start_transaction_state (cs : CentralSystem) (cid : Nat)
    (tag : String) (ms : Int) (t : String) :
    (on_start_transaction cs cid tag ms t).2.1 =
      { cs with
        transactions := dictInsert cs.transactions
          (cs.transactions.length + 1) ⟨cid, tag, ms, t⟩ } := rfl

theorem runTxEvents_start_step (cs : CentralSystem) (cid : Nat)
    (tag : String) (ms : Int) (t : String) (rest : List TxEvent) :
    runTxEvents cs (TxEvent.start cid tag ms t :: rest) =
      ((runTxEvents (on_start_transaction cs cid tag ms t).2.1 rest).1,
       (cs.transactions.length + 1) ::
         (runTxEvents (on_start_transaction cs cid tag ms t).2.1 rest).2) :=
  rfl

/-- On a run consisting solely of StartTransaction handlings from a state
whose keys are bounded by its size, the allocated ids are consecutive
integers starting one past the current size, and the bound is
preserved. -/
theorem runTxEvents_all_starts (evts : List TxEvent) :
    ∀ cs : CentralSystem, (∀ e ∈ evts, e.isStart = true) →
    keysBounded cs.transactions →
    (runTxEvents cs evts).2 =
      List.range' (cs.transactions.length + 1) evts.length ∧
    keysBounded (runTxEvents cs evts).1.transactions := by
  induction evts with
  | nil =>
    intro cs _ hb
    exact ⟨rfl, hb⟩
  | cons e rest ih =>
    intro cs hstart hb
    cases e with
    | stop ms t tid reason =>
      have := hstart (TxEvent.stop ms t tid reason) (by simp)
      simp [TxEvent.isStart] at this
    | start cid tag ms t =>
      have hnone : dictLookup cs.transactions (cs.transactions.length + 1)
          = none := dictLookup_next_eq_none _ hb
      have happ := dictInsert_eq_append cs.transactions
        (cs.transactions.length + 1) ⟨cid, tag, ms, t⟩ hnone
      have htr : (on_start_transaction cs cid tag ms t).2.1.transactions =
          cs.transactions ++
            [(cs.transactions.length + 1, ⟨cid, tag, ms, t⟩)] := by
        rw [on_start_transaction_state]
        exact happ
      have hlen : (on_start_transaction cs cid tag ms t).2.1.transactions.length
          = cs.transactions.length + 1 := by
        simp [htr]
      have hb' : keysBounded (on_start_transaction cs cid tag ms t).2.1.transactions := by
        rw [htr]
        exact keysBounded_append _ _ hb
      have hrest : ∀ e ∈ rest, e.isStart = true := fun e he =>
        hstart e (by simp [he])
      obtain ⟨hids, hbf⟩ := ih (on_start_transaction cs cid tag ms t).2.1 hrest hb'
      rw [runTxEvents_start_step]
      refine ⟨?_, hbf⟩
      rw [hids, hlen, List.length_cons, List.range'_succ]

/-- C1's failing trace: two starts, a stop of transaction 1, then a
third start. -/
def reuseTrace : List TxEvent :=
  [TxEvent.start 1 "RFID1" 100 "T0", TxEvent.start 2 "RFID2" 200 "T1",
   TxEvent.stop 500 "T2" 1 none, TxEvent.start 1 "RFID3" 300 "T3"]

/-- C1: FALSIFIED BY THE CODE (code bug).  On a fresh session, handling
StartTransaction, StartTransaction, StopTransaction(transaction_id 1),
StartTransaction allocates transaction_ids 1, 2, 2: the final
StartTransaction reuses id 2 (`len(self.transactions) + 1` after the
eviction) and silently overwrites the still-active transaction 2, so the
allocated id is not strictly greater than every previously allocated id. -/
theorem transaction_id_reuse :
    (runTxEvents (CentralSystem.mkSession "CP1") reuseTrace).2 = [1, 2, 2] ∧
    (runTxEvents (CentralSystem.mkSession "CP1") reuseTrace).1.transactions =
      [(2, ⟨1, "RFID3", 300, "T3"⟩)] := by
  exact ⟨rfl, rfl⟩

/-- C2: handling a StopTransaction whose transaction_id is not a key of
the session's transactions map returns an accepted IdTagInfo, leaves the
session state unchanged, and logs exactly one warning. -/
theorem stop_unknown_transaction (cs : CentralSystem) (meter_stop : Int)
    (timestamp : String) (transaction_id : Nat) (reason : Option String)
    (h : dictLookup cs.transactions transaction_id = none) :
    (on_stop_transaction cs meter_stop timestamp transaction_id reason).1.id_tag_info.status
        = AuthorizationStatus.accepted ∧
    (on_stop_transaction cs meter_stop timestamp transaction_id reason).2.1 = cs ∧
    (on_stop_transaction cs meter_stop timestamp transaction_id reason).2.2 =
      [⟨LogLevel.warning,
        "StopTransaction for unknown transaction " ++ toString transaction_id⟩] := by
  simp [on_stop_transaction, h]

theorem stop_unknown_transaction_witness :
    dictLookup (CentralSystem.mkSession "CP").transactions 1 = none ∧
    ((on_stop_transaction (CentralSystem.mkSession "CP") 500 "T2" 1 none).1.id_tag_info.status
        = AuthorizationStatus.accepted ∧
     (on_stop_transaction (CentralSystem.mkSession "CP") 500 "T2" 1 none).2.1
        = CentralSystem.mkSession "CP" ∧
     (on_stop_transaction (CentralSystem.mkSession "CP") 500 "T2" 1 none).2.2 =
       [⟨LogLevel.warning,
         "StopTransaction for unknown transaction " ++ toString 1⟩]) :=
  ⟨rfl, stop_unknown_transaction (CentralSystem.mkSession "CP") 500 "T2" 1 none rfl⟩

/-- C3: N sequential StartTransaction handlings on a freshly created
session (no intervening StopTransaction) return N transaction_ids that
are pairwise strictly increasing (hence pairwise distinct) and start
at 1. -/
theorem sequential_start_ids (id : String) (evts : List TxEvent)
    (hstart : ∀ e ∈ evts, e.isStart = true) (hne : evts ≠ []) :
    (runTxEvents (CentralSystem.mkSession id) evts).2.length = evts.length ∧
    List.Pairwise (· < ·) (runTxEvents (CentralSystem.mkSession id) evts).2 ∧
    (runTxEvents (CentralSystem.mkSession id) evts).2.head? = some 1 := by
  obtain ⟨hids, -⟩ := runTxEvents_all_starts evts (CentralSystem.mkSession id)
    hstart (by intro p hp; simp [CentralSystem.mkSession] at hp)
  rw [hids]
  simp only [CentralSystem.mkSession, List.length_nil, Nat.zero_add]
  refine ⟨List.length_range' 1 1 evts.length, List.pairwise_lt_range' 1 evts.length, ?_⟩
  rw [List.head?_range']
  simp [hne]

/-- A three-start trace for the C3 witness. -/
def startsTrace : List TxEvent :=
  [TxEvent.start 1 "RFID1" 100 "T0", TxEvent.start 1 "RFID2" 0 "T1",
   TxEvent.start 2 "RFID3" 5 "T2"]

theorem sequential_start_ids_witness :
    (∀ e ∈ startsTrace, e.isStart = true) ∧
    (runTxEvents (CentralSystem.mkSession "CP") startsTrace).2.length
        = startsTrace.length ∧
    List.Pairwise (· < ·) (runTxEvents (CentralSystem.mkSession "CP") startsTrace).2 ∧
    (runTxEvents (CentralSystem.mkSession "CP") startsTrace).2.head? = some 1 :=
  ⟨by decide, sequential_start_ids "CP" startsTrace (by decide) (by decide)⟩

/-- C5: handling a StopTransaction whose transaction_id is a key of the
session's transactions map evicts that transaction from the active map
(transactions are active exactly while in the map, so eviction is the
observable form of marking the transaction Stopped), leaves every other
entry unchanged, and returns an accepted IdTagInfo. -/
theorem stop_known_transaction (cs : CentralSystem) (meter_stop : Int)
    (timestamp : String) (transaction_id : Nat) (tx : Transaction)
    (h : dictLookup cs.transactions transaction_id = some tx) :
    (on_stop_transaction cs meter_stop timestamp transaction_id none).1.id_tag_info.status
        = AuthorizationStatus.accepted ∧
    dictLookup
      (on_stop_transaction cs meter_stop timestamp transaction_id none).2.1.transactions
      transaction_id = none ∧
    (∀ k, k ≠ transaction_id →
      dictLookup
        (on_stop_transaction cs meter_stop timestamp transaction_id none).2.1.transactions
        k = dictLookup cs.transactions k) ∧
    (on_stop_transaction cs meter_stop timestamp transaction_id none).2.1.reservations
        = cs.reservations := by
  refine ⟨by simp [on_stop_transaction, h], ?_, ?_, ?_⟩
  · simp only [on_stop_transaction, h]
    exact dictLookup_dictErase_self cs.transactions transaction_id
  · intro k hk
    simp only [on_stop_transaction, h]
    exact dictLookup_dictErase_ne cs.transactions transaction_id k hk
  · simp [on_stop_transaction, h]

/-- A session holding transactions 1 and 2, for the C5 witness. -/
def twoTxSession : CentralSystem :=
  (runTxEvents (CentralSystem.mkSession "CP")
    [TxEvent.start 1 "RFID1" 100 "T0", TxEvent.start 2 "RFID2" 200 "T1"]).1

theorem stop_known_transaction_witness :
    dictLookup twoTxSession.transactions 1 = some ⟨1, "RFID1", 100, "T0"⟩ ∧
    ((on_stop_transaction twoTxSession 500 "T2" 1 none).1.id_tag_info.status
        = AuthorizationStatus.accepted ∧
     dictLookup (on_stop_transaction twoTxSession 500 "T2" 1 none).2.1.transactions 1
        = none ∧
     (∀ k, k ≠ 1 →
       dictLookup (on_stop_transaction twoTxSession 500 "T2" 1 none).2.1.transactions k
          = dictLookup twoTxSession.transactions k) ∧
     (on_stop_transaction twoTxSession 500 "T2" 1 none).2.1.reservations
        = twoTxSession.reservations) :=
  ⟨rfl, stop_known_transaction twoTxSession 500 "T2" 1 ⟨1, "RFID1", 100, "T0"⟩ rfl⟩

/-- C6: handling a BootNotification answers with status Accepted and
interval 30, in both src/server.py (lines 81-91) and src/app.py
(lines 28-40). -/
theorem boot_notification_accepted_interval (cs : CentralSystem)
    (now vendor model : String) :
    (on_boot_notification cs now vendor model).1.status
        = RegistrationStatus.accepted ∧
    (on_boot_notification cs now vendor model).1.interval = 30 ∧
    (appBootNotification now vendor model).status = RegistrationStatus.accepted ∧
    (appBootNotification now vendor model).interval = 30 := by
  exact ⟨rfl, rfl, rfl, rfl⟩

/-- C9: handling an Authorize call returns an accepted IdTagInfo for
every id_tag — the handler applies no policy and never rejects a tag
(and leaves the session state unchanged). -/
theorem authorize_always_accepted (cs : CentralSystem) (id_tag : String) :
    (on_authorize cs id_tag).1.id_tag_info.status = AuthorizationStatus.accepted ∧
    (on_authorize cs id_tag).2.1 = cs := by
  exact ⟨rfl, rfl⟩

/-- C10: after a StartTransaction handling, the transaction_id returned
in the CallResult is a key of the session's transactions map, and the
stored record holds exactly the connector_id, id_tag, meter_start and
timestamp of the call. -/
theorem start_transaction_stores_record (cs : CentralSystem)
    (connector_id : Nat) (id_tag : String) (meter_start : Int)
    (timestamp : String) :
    dictLookup
      (on_start_transaction cs connector_id id_tag meter_start timestamp).2.1.transactions
      (on_start_transaction cs connector_id id_tag meter_start timestamp).1.transaction_id
      = some ⟨connector_id, id_tag, meter_start, timestamp⟩ := by
  rw [on_start_transaction_state]
  exact dictLookup_dictInsert_self cs.transactions (cs.transactions.length + 1) _

/-- C7: handling any inbound call whose action is not StartTransaction or
StopTransaction leaves the session's transactions and reservations maps
unchanged, and every handled call — StartTransaction and StopTransaction
included — leaves the reservations map unchanged. -/
theorem handlers_frame (cs : CentralSystem) (now : String) (c : InboundCall) :
    (handleCall cs now c).2.1.reservations = cs.reservations ∧
    (c.isTransactionCall = false →
      (handleCall cs now c).2.1.transactions = cs.transactions ∧
      (handleCall cs now c).2.1.reservations = cs.reservations) := by
  cases c with
  | bootNotification v m => exact ⟨rfl, fun _ => ⟨rfl, rfl⟩⟩
  | heartbeat => exact ⟨rfl, fun _ => ⟨rfl, rfl⟩⟩
  | statusNotification cid ec st => exact ⟨rfl, fun _ => ⟨rfl, rfl⟩⟩
  | meterValues cid mv => exact ⟨rfl, fun _ => ⟨rfl, rfl⟩⟩
  | startTransaction cid tag ms t =>
    refine ⟨rfl, fun hf => ?_⟩
    simp [InboundCall.isTransactionCall] at hf
  | stopTransaction ms t tid reason =>
    refine ⟨?_, fun hf => ?_⟩
    · simp only [handleCall, on_stop_transaction]
      cases dictLookup cs.transactions tid <;> rfl
    · simp [InboundCall.isTransactionCall] at hf
  | authorize tag => exact ⟨rfl, fun _ => ⟨rfl, rfl⟩⟩
  | dataTransfer vid mid data => exact ⟨rfl, fun _ => ⟨rfl, rfl⟩⟩
  | diagnosticsStatus st => exact ⟨rfl, fun _ => ⟨rfl, rfl⟩⟩
  | firmwareStatus st => exact ⟨rfl, fun _ => ⟨rfl, rfl⟩⟩

theorem handlers_frame_witness :
    (handleCall (CentralSystem.mkSession "CP") "T" InboundCall.heartbeat).2.1.reservations
        = (CentralSystem.mkSession "CP").reservations ∧
    ((handleCall (CentralSystem.mkSession "CP") "T" InboundCall.heartbeat).2.1.transactions
        = (CentralSystem.mkSession "CP").transactions ∧
     (handleCall (CentralSystem.mkSession "CP") "T" InboundCall.heartbeat).2.1.reservations
        = (CentralSystem.mkSession "CP").reservations) :=
  ⟨(handlers_frame (CentralSystem.mkSession "CP") "T" InboundCall.heartbeat).1,
   (handlers_frame (CentralSystem.mkSession "CP") "T" InboundCall.heartbeat).2 rfl⟩

/-- C8: handling a ReserveNow call creates an entry in the session's
reservations map keyed by its reservation_id, and handling a
CancelReservation call for that reservation_id removes the entry
(handlers modelled from the spec: the repository only declares the
reservations map and never registers either handler). -/
theorem reserve_then_cancel (cs : CentralSystem) (connector_id : Nat)
    (expiry_date id_tag : String) (reservation_id : Nat) :
    dictLookup (on_reserve_now cs connector_id expiry_date id_tag
        reservation_id).reservations reservation_id
      = some ⟨reservation_id, connector_id, id_tag, expiry_date⟩ ∧
    dictLookup (on_cancel_reservation (on_reserve_now cs connector_id
        expiry_date id_tag reservation_id) reservation_id).reservations
        reservation_id = none := by
  constructor
  · exact dictLookup_dictInsert_self cs.reservations reservation_id _
  · exact dictLookup_dictErase_self _ reservation_id

/-! ## Connection path handling -/

theorem dropWhile_slash_eq_self (l : List Char) (h : '/' ∉ l) :
    l.dropWhile (fun c => c == '/') = l := by
  cases l with
  | nil => rfl
  | cons c t =>
    have hc : c ≠ '/' := fun hc => h (by simp [hc])
    simp [List.dropWhile_cons, hc]

theorem stripSlashes_lead (x : List Char) (h : '/' ∉ x) :
    stripSlashes ('/' :: x) = x := by
  unfold stripSlashes
  rw [List.dropWhile_cons]
  simp only [beq_self_eq_true, if_true]
  rw [dropWhile_slash_eq_self x h]
  have hr : '/' ∉ x.reverse := by simpa using h
  rw [dropWhile_slash_eq_self x.reverse hr, List.reverse_reverse]

theorem stripSlashes_wrap (x : List Char) (h : '/' ∉ x) :
    stripSlashes ('/' :: (x ++ ['/'])) = x := by
  unfold stripSlashes
  rw [List.dropWhile_cons]
  simp only [beq_self_eq_true, if_true]
  cases x with
  | nil => rfl
  | cons c t =>
    have hc : c ≠ '/' := fun hc => h (by simp [hc])
    have ht : '/' ∉ t := fun ht => h (by simp [ht])
    rw [List.cons_append, List.dropWhile_cons]
    simp only [beq_iff_eq, hc, if_false]
    have hrev : (c :: (t ++ ['/'])).reverse = '/' :: (t.reverse ++ [c]) := by
      simp
    rw [hrev, List.dropWhile_cons]
    simp only [beq_self_eq_true, if_true]
    have hrt : '/' ∉ (t.reverse ++ [c]) := by
      intro hmem
      rcases List.mem_append.mp hmem with hm | hm
      · exact ht (List.mem_reverse.mp hm)
      · simp at hm
        exact hc hm.symm
    rw [dropWhile_slash_eq_self _ hrt]
    simp

theorem takeWhile_nonslash_append (x : List Char) (h : '/' ∉ x) :
    (x ++ ['/']).takeWhile (fun c => c != '/') = x := by
  induction x with
  | nil => rfl
  | cons c t ih =>
    have hc : c ≠ '/' := fun hc => h (by simp [hc])
    have ht : '/' ∉ t := fun hm => h (by simp [hm])
    rw [List.cons_append, List.takeWhile_cons]
    simp [hc, ih ht]

/-- C4: FALSIFIED AS STATED.  For the path "/a/b" the code's identity
`path.strip("/")` is "a/b", while the URL path segment after the final
'/' is "b"; the two disagree, so the session key is not the segment
after the final slash in general. -/
theorem chargePointId_ne_last_segment :
    chargePointId "/a/b" = "a/b" ∧
    pathSegmentAfterLastSlash "/a/b" = "b" ∧
    chargePointId "/a/b" ≠ pathSegmentAfterLastSlash "/a/b" := by
  refine ⟨rfl, rfl, ?_⟩
  decide

/-- C4 (amended): the charge point identity used as the session key is
the URL path with all leading and trailing '/' characters stripped —
which equals the segment after the final '/' for single-segment paths
"/seg" — and the server accepts both an empty identity (path "/") and a
non-empty one, with or without a trailing slash. -/
theorem connect_identity_stripped (seg : String) (h : '/' ∉ seg.toList) :
    (on_connect ("/" ++ seg)).id = seg ∧
    (on_connect ("/" ++ seg ++ "/")).id = seg ∧
    (on_connect ("/" ++ seg)).id = pathSegmentAfterLastSlash ("/" ++ seg) ∧
    (on_connect "/").id = "" := by
  have hdata : ("/" ++ seg).toList = '/' :: seg.toList := by
    simp [String.toList, String.data_append]
  have hdata2 : ("/" ++ seg ++ "/").toList = '/' :: (seg.toList ++ ['/']) := by
    simp [String.toList, String.data_append]
  have hmk : (⟨seg.toList⟩ : String) = seg := rfl
  refine ⟨?_, ?_, ?_, ?_⟩
  · show chargePointId ("/" ++ seg) = seg
    unfold chargePointId
    rw [hdata, stripSlashes_lead seg.toList h]
    exact hmk
  · show chargePointId ("/" ++ seg ++ "/") = seg
    unfold chargePointId
    rw [hdata2, stripSlashes_wrap seg.toList h]
    exact hmk
  · show chargePointId ("/" ++ seg) = pathSegmentAfterLastSlash ("/" ++ seg)
    unfold chargePointId pathSegmentAfterLastSlash
    rw [hdata, stripSlashes_lead seg.toList h, List.reverse_cons,
      takeWhile_nonslash_append seg.toList.reverse (by simpa using h),
      List.reverse_reverse]
  · rfl

theorem connect_identity_stripped_witness :
    '/' ∉ ("CP1" : String).toList ∧
    ((on_connect ("/" ++ "CP1")).id = "CP1" ∧
     (on_connect ("/" ++ "CP1" ++ "/")).id = "CP1" ∧
     (on_connect ("/" ++ "CP1")).id = pathSegmentAfterLastSlash ("/" ++ "CP1") ∧
     (on_connect "/").id = "") :=
  ⟨by decide, connect_identity_stripped "CP1" (by decide)⟩

end OCPP
